import Mathlib

/-!
Verification development for the `py-poppleract` text-extraction core
(`text_extraction_service/text_extraction.py`).

The Python classes are shallowly embedded as pure Lean functions:

* the file system is an explicit state (`FSState`) holding the current working
  directory, the existing files with their textual contents, and the existing
  directories;
* the external collaborators (the `pdftotext` content-stream extractor, the
  `pdf2image` rasterizer and the Tesseract OCR engine) are oracles: the
  per-page strings the extractor returns, the file names the rasterizer drops
  into the images folder, and a function from image path to recognized text;
* Python exceptions become an explicit `RunStatus` result, and every state
  mutation made before a raise is kept in the returned state, exactly as the
  Python interpreter leaves the real file system;
* Python string and path primitives (`str.split`, `sorted`,
  `os.path.split`, `os.path.join`, `pathlib.PurePath.suffixes`) are
  re-implemented over `List Char` by structural recursion so that every
  concrete run can be evaluated by `decide`.
-/

namespace Poppleract

/-- Lexicographic code-point comparison of character lists, the order Python
uses to compare strings (`a <= b`). -/
def strLeChars : List Char → List Char → Bool
  | [], _ => true
  | _ :: _, [] => false
  | a :: as, b :: bs =>
    if a.toNat < b.toNat then true
    else if a.toNat = b.toNat then strLeChars as bs
    else false

/-- Python string comparison `a <= b`. -/
def strLe (a b : String) : Bool :=
  strLeChars a.toList b.toList

/-- Insert a string into an already sorted list, before any equal element, so
that the overall sort below is stable like Python `sorted`. -/
def insertSorted (x : String) : List String → List String
  | [] => [x]
  | y :: ys => if strLe x y then x :: y :: ys else y :: insertSorted x ys

/-- Stable ascending sort by code points: the model of Python `sorted` on a
list of strings. -/
def sortStrings : List String → List String
  | [] => []
  | x :: xs => insertSorted x (sortStrings xs)

/-- Does the second character list start with the first one? -/
def listStartsWith : List Char → List Char → Bool
  | [], _ => true
  | _ :: _, [] => false
  | p :: ps, c :: cs => p == c && listStartsWith ps cs

/-- The characters strictly before the first occurrence of `sep` (the whole
list when `sep` does not occur). -/
def takeBeforeSub (sep : List Char) : List Char → List Char
  | [] => []
  | c :: cs => if listStartsWith sep (c :: cs) then [] else c :: takeBeforeSub sep cs

/-- Python `s.split(sep)[0]` for a non-empty separator `sep`: the part of `s`
before the first occurrence of `sep`, or all of `s` when `sep` is absent. -/
def str_split_head (s sep : String) : String :=
  (takeBeforeSub sep.toList s.toList).asString

/-- Python `s.split('.')` on the underlying character list; never empty. -/
def splitOnDot : List Char → List (List Char)
  | [] => [[]]
  | c :: cs =>
    if c == '.' then [] :: splitOnDot cs
    else
      match splitOnDot cs with
      | [] => [[c]]
      | p :: ps => (c :: p) :: ps

/-- Python `name.endswith('.')`. -/
def endsWithDot (s : String) : Bool :=
  match s.toList.getLast? with
  | some c => c == '.'
  | none => false

/-- CPython `pathlib.PurePath.suffixes` applied to a file name: empty when the
name ends with a dot, otherwise the dot-prefixed components after the first
dot of the name with leading dots stripped. -/
def path_suffixes (name : String) : List String :=
  if endsWithDot name then []
  else
    let stripped := name.toList.dropWhile (fun c => c == '.')
    match splitOnDot stripped with
    | [] => []
    | _ :: rest => rest.map (fun p => "." ++ p.asString)

/-- Python `os.path.split`: everything after the last slash is the tail; the
head keeps only trailing slashes when it consists of slashes alone. -/
def os_path_split (p : String) : String × String :=
  let cs := p.toList
  let tl := (cs.reverse.takeWhile (fun c => c != '/')).reverse
  let hd := cs.take (cs.length - tl.length)
  let hd2 :=
    if hd.all (fun c => c == '/') then hd
    else (hd.reverse.dropWhile (fun c => c == '/')).reverse
  (hd2.asString, tl.asString)

/-- Python `os.path.join` restricted to two components. -/
def os_path_join (a b : String) : String :=
  if b.toList.head? == some '/' then b
  else if a == "" then b
  else if a.toList.getLast? == some '/' then a ++ b
  else a ++ "/" ++ b

/-- CPython `pathlib.PurePath.name`: trailing slashes are ignored and the last
path component is returned. -/
def path_name (p : String) : String :=
  let stripped := (p.toList.reverse.dropWhile (fun c => c == '/')).reverse.asString
  (os_path_split stripped).2

/-- Model of `NotMrPdfExtractor._remove_extensions`: on a name with a non-empty suffix
list, split the name on its first suffix and keep the part before it;
otherwise return the name unchanged. -/
def remove_extensions (file_name : String) : String :=
  let nm := path_name file_name
  match path_suffixes nm with
  | [] => nm
  | s :: _ => str_split_head nm s

/-- Explicit file-system state threaded through the embedded extractors. -/
structure FSState where
  cwd : String
  files : List (String × String)
  dirs : List String
deriving DecidableEq, Repr

/-- Python `os.path.isfile`. -/
def os_isfile (fs : FSState) (p : String) : Bool :=
  (fs.files.map Prod.fst).contains p

/-- Python `os.path.isdir`. -/
def os_isdir (fs : FSState) (p : String) : Bool :=
  fs.dirs.contains p

/-- The textual content stored at path `p`, when a file exists there. -/
def read_file (fs : FSState) (p : String) : Option String :=
  ((fs.files.filter (fun e => e.1 == p)).map Prod.snd).head?

/-- The name under which path `p` appears as a direct entry of directory `d`,
if it is one. -/
def entry_in_dir (d p : String) : Option String :=
  if (os_path_split p).1 == d then some (os_path_split p).2 else none

/-- Python `os.listdir`: the names of the files and directories lying directly
inside `d` (the later sort makes the listing order irrelevant). -/
def os_listdir (fs : FSState) (d : String) : List String :=
  (fs.files.map Prod.fst).filterMap (entry_in_dir d) ++ fs.dirs.filterMap (entry_in_dir d)

/-- Model of `BasePdfExtractor._check_paths`: the input path is an existing file, it
differs from the output path, and the output file's directory (the current
working directory when the output path has no directory part) exists. -/
def check_paths (fs : FSState) (in_pdf_file_path out_txt_file_path : String) : Bool :=
  os_isfile fs in_pdf_file_path &&
  (in_pdf_file_path != out_txt_file_path) &&
  (let d := (os_path_split out_txt_file_path).1
   os_isdir fs (if d = "" then fs.cwd else d))

/-- The images-folder path `NotMrPdfExtractor._create_images_folder` derives:
the configured cache folder joined with the input file's base name with
extensions removed. -/
def images_folder_path_of (cache_folder in_pdf_file_path : String) : String :=
  os_path_join cache_folder (remove_extensions (os_path_split in_pdf_file_path).2)

/-- Model of `NotMrPdfExtractor._create_images_folder`: compute the folder path and
create the directory only when it does not already exist. -/
def create_images_folder (cache_folder : String) (fs : FSState) (in_pdf_file_path : String) :
    String × FSState :=
  let fp := images_folder_path_of cache_folder in_pdf_file_path
  if os_isdir fs fp then (fp, fs)
  else (fp, { fs with dirs := fp :: fs.dirs })

/-- Effect of `PdfSplitter.split_pdf_to_images` on the file system: the
rasterizer oracle drops one image file per produced name into the folder. -/
def split_pdf_to_images (fs : FSState) (folder : String) (raster_names : List String) : FSState :=
  { fs with files := fs.files ++ raster_names.map (fun n => (os_path_join folder n, "image-bytes")) }

/-- Model of `BasePdfExtractor._store`: Python `open(mode="w")` followed by `write`,
creating the file or truncating an existing one. -/
def store (fs : FSState) (p content : String) : FSState :=
  { fs with files := (fs.files.filter (fun e => e.1 != p)) ++ [(p, content)] }

/-- Is `p` the path `root` itself or a path inside it? -/
def path_within (root p : String) : Bool :=
  p == root || listStartsWith (root ++ "/").toList p.toList

/-- Python `shutil.rmtree`: remove the directory and everything below it. -/
def rmtree (fs : FSState) (root : String) : FSState :=
  { fs with
    files := fs.files.filter (fun e => ! path_within root e.1),
    dirs := fs.dirs.filter (fun d => ! path_within root d) }

/-- The error kinds an embedded extraction can raise: the `AssertionError` of
the path checks, the `ValueError` of the page-count comparison, and an
`OSError` escaping `shutil.rmtree`. -/
inductive ExtractionError where
  | invalidInput
  | pageCountMismatch
  | cacheCleanupFailure
deriving DecidableEq, Repr

/-- Normal return versus a raised exception. -/
inductive RunStatus where
  | ok
  | err (e : ExtractionError)
deriving DecidableEq, Repr

/-- Model of `NotMrPdfExtractor._remove_cache_folder`: do nothing when the cache is
preserved; otherwise run `shutil.rmtree`, whose success is decided by the
`rmtree_ok` oracle — the Python code wraps it in no handler, so a failure
raises and leaves the state as it was. -/
def remove_cache_folder (preserve_cache rmtree_ok : Bool) (fs : FSState) (folder : String) :
    RunStatus × FSState :=
  if preserve_cache then (.ok, fs)
  else if rmtree_ok then (.ok, rmtree fs folder)
  else (.err .cacheCleanupFailure, fs)

/-- Model of `BasePdfExtractor._merge_pages_contents`: Python
`f"\n\n{sep}\n\n".join(pages_contents)`. -/
def merge_pages_contents (pages_sep_token : String) (pages_contents : List String) : String :=
  String.intercalate ("\n\n" ++ pages_sep_token ++ "\n\n") pages_contents

/-- The per-page branch of `PoppleractPdfExtractor.extract_text`: Python
`if page_content and len(page_content) >= minimum_chars_number` keeps the
directly extracted text, and otherwise calls `image_to_string` on the paired
image. -/
def page_decision (minimum_chars_number : Int) (ocr : String → String)
    (page_content img_path : String) : String :=
  if page_content ≠ "" ∧ (page_content.length : Int) ≥ minimum_chars_number then page_content
  else ocr img_path

/-- Oracles for the three external collaborators of one hybrid run: the
per-page strings `pdftotext` returns, the file names the rasterizer produces,
the OCR engine, and whether `shutil.rmtree` would succeed. -/
structure HybridEnv where
  extracted_pages : List String
  raster_names : List String
  ocr : String → String
  rmtree_ok : Bool

/-- Observable outcome of one embedded extraction: the status, the final file
system, the image paths OCR was invoked on (in invocation order), and the
`(path, content)` pair passed to `_store`, if the store was reached. -/
structure Outcome where
  result : RunStatus
  fs : FSState
  ocrCalls : List String
  stored : Option (String × String)
deriving DecidableEq, Repr

/-- The file system after `_create_images_folder` and `split_pdf_to_images`
have run, the state in which the hybrid extractor lists the images. -/
def hybrid_fs2 (cache_folder : String) (env : HybridEnv) (fs : FSState)
    (in_pdf_file_path : String) : FSState :=
  split_pdf_to_images (create_images_folder cache_folder fs in_pdf_file_path).2
    (create_images_folder cache_folder fs in_pdf_file_path).1 env.raster_names

/-- The hybrid extractor's image list: Python
`sorted([os.path.join(folder, fn) for fn in sorted(os.listdir(folder))])`. -/
def hybrid_imgs_pages (fs : FSState) (folder : String) : List String :=
  sortStrings ((sortStrings (os_listdir fs folder)).map (fun fn => os_path_join folder fn))

/-- The `result_pages` list the hybrid loop builds: one decision per
`zip(extracted_pages, imgs_pages)` pair. -/
def hybrid_result_pages (minimum_chars_number : Int) (ocr : String → String)
    (extracted imgs : List String) : List String :=
  (extracted.zip imgs).map (fun pi => page_decision minimum_chars_number ocr pi.1 pi.2)

/-- The image paths on which the hybrid loop invokes `image_to_string`, in
loop order. -/
def hybrid_ocr_calls (minimum_chars_number : Int) (extracted imgs : List String) : List String :=
  (extracted.zip imgs).filterMap (fun pi =>
    if pi.1 ≠ "" ∧ (pi.1.length : Int) ≥ minimum_chars_number then none else some pi.2)

/-- The sorted image list of one hybrid run, the list whose length is compared
against the number of directly extracted pages and whose elements are paired
with them. -/
def hybrid_imgs (cache_folder : String) (env : HybridEnv) (fs : FSState)
    (in_pdf_file_path : String) : List String :=
  hybrid_imgs_pages (hybrid_fs2 cache_folder env fs in_pdf_file_path)
    (create_images_folder cache_folder fs in_pdf_file_path).1

/-- Model of `PoppleractPdfExtractor.extract_text` (hybrid mode): check paths, read the
direct per-page texts, create the images folder, rasterize, list and sort the
images, compare the two counts, decide each page, merge, store, and finally
remove the cache folder. A raise returns immediately with the state mutated so
far. -/
def hybrid_extract_text (preserve_cache : Bool) (cache_folder pages_sep_token : String)
    (env : HybridEnv) (fs : FSState) (in_pdf_file_path out_txt_file_path : String)
    (minimum_chars_number : Int) : Outcome :=
  if ! check_paths fs in_pdf_file_path out_txt_file_path then
    ⟨.err .invalidInput, fs, [], none⟩
  else if env.extracted_pages.length
      ≠ (hybrid_imgs cache_folder env fs in_pdf_file_path).length then
    ⟨.err .pageCountMismatch, hybrid_fs2 cache_folder env fs in_pdf_file_path, [], none⟩
  else
    let pages := hybrid_result_pages minimum_chars_number env.ocr env.extracted_pages
      (hybrid_imgs cache_folder env fs in_pdf_file_path)
    let calls := hybrid_ocr_calls minimum_chars_number env.extracted_pages
      (hybrid_imgs cache_folder env fs in_pdf_file_path)
    let merged := merge_pages_contents pages_sep_token pages
    let fs3 := store (hybrid_fs2 cache_folder env fs in_pdf_file_path) out_txt_file_path merged
    let rc := remove_cache_folder preserve_cache env.rmtree_ok fs3
      (create_images_folder cache_folder fs in_pdf_file_path).1
    ⟨rc.1, rc.2, calls, some (out_txt_file_path, merged)⟩

/-- Model of `PdfToTextExtractor.extract_text` (pure machine-readable mode): check
paths, read the per-page texts, merge, store. -/
def pdftotext_extract_text (pages_sep_token : String) (extracted_pages : List String)
    (fs : FSState) (in_pdf_file_path out_txt_file_path : String) : Outcome :=
  if ! check_paths fs in_pdf_file_path out_txt_file_path then
    ⟨.err .invalidInput, fs, [], none⟩
  else
    let merged := merge_pages_contents pages_sep_token extracted_pages
    ⟨.ok, store fs out_txt_file_path merged, [], some (out_txt_file_path, merged)⟩

/-- The image paths `TesseractPdfExtractor._apply_ocr` iterates over:
`sorted(os.listdir(folder))` joined onto the folder. -/
def apply_ocr_paths (fs : FSState) (folder : String) : List String :=
  (sortStrings (os_listdir fs folder)).map (fun fn => os_path_join folder fn)

/-- Model of `TesseractPdfExtractor.extract_text` (pure OCR mode): check paths, create
the images folder, rasterize, OCR every listed image (each preceded by an
is-file assertion, here checked over the whole list), merge, store, remove the
cache folder. -/
def tesseract_extract_text (preserve_cache : Bool) (cache_folder pages_sep_token : String)
    (env : HybridEnv) (fs : FSState) (in_pdf_file_path out_txt_file_path : String) : Outcome :=
  if ! check_paths fs in_pdf_file_path out_txt_file_path then
    ⟨.err .invalidInput, fs, [], none⟩
  else
    let fs2 := hybrid_fs2 cache_folder env fs in_pdf_file_path
    let imgs := apply_ocr_paths fs2 (create_images_folder cache_folder fs in_pdf_file_path).1
    if ! imgs.all (fun p => os_isfile fs2 p) then
      ⟨.err .invalidInput, fs2, [], none⟩
    else
      let pages := imgs.map env.ocr
      let merged := merge_pages_contents pages_sep_token pages
      let fs3 := store fs2 out_txt_file_path merged
      let rc := remove_cache_folder preserve_cache env.rmtree_ok fs3
        (create_images_folder cache_folder fs in_pdf_file_path).1
      ⟨rc.1, rc.2, imgs, some (out_txt_file_path, merged)⟩

/-- The keyword default of `NotMrPdfExtractor.__init__` relevant to the cache
lifecycle. -/
structure NotMrInitDefaults where
  preserve_cache : Bool := true
deriving DecidableEq, Repr

/-- The keyword defaults of `PoppleractPdfExtractor.extract_text`. -/
structure HybridExtractDefaults where
  minimum_chars_number : Int := 20
  raw : Bool := false
  physical : Bool := false
  dpi : Int := 200
  lang : String := "eng"
  oem : Int := 3
  psm : Int := 3
  tessdata_dir : Option String := none
  thresholding_method : Int := 0
  preserve_interword_spaces : Int := 1
deriving DecidableEq, Repr

/-- A small concrete file system: an input PDF in `/w`, an existing cache
root `/cache`, and nothing else. -/
def fs0 : FSState :=
  { cwd := "/w", files := [("/w/in.pdf", "pdf-bytes")], dirs := ["/w", "/cache"] }

/-- A concrete OCR oracle returning a fixed recognized text. -/
def ocr0 : String → String := fun _ => "OCRTEXT"

/-- Oracle for a mismatched document: three directly extracted pages but four
rasterized images; deletion of the cache folder would succeed. -/
def env_mismatch : HybridEnv :=
  { extracted_pages :=
      ["aaaaaaaaaaaaaaaaaaaaaaaa", "bbbbbbbbbbbbbbbbbbbbbbbb", "cccccccccccccccccccccccc"],
    raster_names := ["pag-1.png", "pag-2.png", "pag-3.png", "pag-4.png"],
    ocr := ocr0,
    rmtree_ok := true }

/-- Oracle for a clean one-page document whose cache folder deletion fails. -/
def env_rmfail : HybridEnv :=
  { extracted_pages := ["this page has plenty of machine readable text"],
    raster_names := ["pag-1.png"],
    ocr := ocr0,
    rmtree_ok := false }

/-- Oracle for a one-page document whose direct text is empty. -/
def env_empty1 : HybridEnv :=
  { extracted_pages := [""],
    raster_names := ["pag-1.png"],
    ocr := ocr0,
    rmtree_ok := true }

/-- Oracle for a clean one-page document with plenty of direct text. -/
def env_good : HybridEnv :=
  { extracted_pages := ["aaaaaaaaaaaaaaaaaaaaaaaa"],
    raster_names := ["pag-1.png"],
    ocr := ocr0,
    rmtree_ok := true }

/-- A file system in which the images folder `/cache/in` for `/w/in.pdf`
already exists and holds a stale image file. -/
def fs_pre : FSState :=
  { cwd := "/w",
    files := [("/w/in.pdf", "pdf-bytes"), ("/cache/in/zz.png", "stale")],
    dirs := ["/w", "/cache", "/cache/in"] }

end Poppleract

namespace Poppleract

theorem os_isfile_iff (fs : FSState) (p : String) :
    os_isfile fs p = true ↔ p ∈ fs.files.map Prod.fst := by
  simp [os_isfile, List.elem_iff]

theorem isdir_split_pdf_to_images (fs : FSState) (folder : String) (names : List String)
    (p : String) :
    os_isdir (split_pdf_to_images fs folder names) p = os_isdir fs p := rfl

theorem create_images_folder_fst (cache_folder : String) (fs : FSState) (inp : String) :
    (create_images_folder cache_folder fs inp).1 = images_folder_path_of cache_folder inp := by
  cases h : os_isdir fs (images_folder_path_of cache_folder inp) <;>
    simp [create_images_folder, h]

theorem create_images_folder_files (cache_folder : String) (fs : FSState) (inp : String) :
    (create_images_folder cache_folder fs inp).2.files = fs.files := by
  cases h : os_isdir fs (images_folder_path_of cache_folder inp) <;>
    simp [create_images_folder, h]

theorem mem_dirs_create_images_folder (cache_folder : String) (fs : FSState) (inp : String) :
    images_folder_path_of cache_folder inp ∈ (create_images_folder cache_folder fs inp).2.dirs := by
  by_cases h : os_isdir fs (images_folder_path_of cache_folder inp) = true
  · simp only [create_images_folder, h, if_true]
    simpa [os_isdir, List.elem_iff] using h
  · simp [create_images_folder, h]

theorem isdir_create_images_folder (cache_folder : String) (fs : FSState) (inp : String) :
    os_isdir (create_images_folder cache_folder fs inp).2
      (create_images_folder cache_folder fs inp).1 = true := by
  rw [create_images_folder_fst]
  simpa [os_isdir, List.elem_iff] using mem_dirs_create_images_folder cache_folder fs inp

theorem isdir_hybrid_fs2 (cache_folder : String) (env : HybridEnv) (fs : FSState) (inp : String) :
    os_isdir (hybrid_fs2 cache_folder env fs inp)
      (create_images_folder cache_folder fs inp).1 = true := by
  rw [hybrid_fs2, isdir_split_pdf_to_images]
  exact isdir_create_images_folder cache_folder fs inp

theorem os_isfile_hybrid_fs2_of_not (cache_folder : String) (env : HybridEnv) (fs : FSState)
    (inp p : String)
    (h1 : os_isfile fs p = false)
    (h2 : ∀ n ∈ env.raster_names, os_path_join (images_folder_path_of cache_folder inp) n ≠ p) :
    os_isfile (hybrid_fs2 cache_folder env fs inp) p = false := by
  have hf : (hybrid_fs2 cache_folder env fs inp).files
      = fs.files ++ env.raster_names.map
          (fun n => (os_path_join (images_folder_path_of cache_folder inp) n, "image-bytes")) := by
    rw [hybrid_fs2, create_images_folder_fst]
    show (split_pdf_to_images (create_images_folder cache_folder fs inp).2 _ _).files = _
    simp [split_pdf_to_images, create_images_folder_files]
  rw [Bool.eq_false_iff]
  intro hc
  rw [os_isfile_iff, hf] at hc
  simp only [List.map_append, List.mem_append, List.map_map] at hc
  rcases hc with hc | hc
  · rw [Bool.eq_false_iff] at h1
    exact h1 ((os_isfile_iff fs p).2 hc)
  · simp only [List.mem_map, Function.comp] at hc
    obtain ⟨n, hn, he⟩ := hc
    exact h2 n hn he


theorem mem_insertSorted (x y : String) (l : List String) :
    y ∈ insertSorted x l ↔ y = x ∨ y ∈ l := by
  induction l with
  | nil => simp [insertSorted]
  | cons z zs ih =>
      simp only [insertSorted]
      by_cases h : strLe x z = true
      · rw [if_pos h]
        simp only [List.mem_cons]
      · rw [if_neg h]
        simp only [List.mem_cons, ih]
        tauto

theorem mem_sortStrings (y : String) (l : List String) :
    y ∈ sortStrings l ↔ y ∈ l := by
  induction l with
  | nil => simp [sortStrings]
  | cons x xs ih => simp [sortStrings, mem_insertSorted, ih]

theorem mem_os_listdir_split (fs : FSState) (folder : String) (names : List String)
    (d e : String) (h : e ∈ os_listdir fs d) :
    e ∈ os_listdir (split_pdf_to_images fs folder names) d := by
  simp only [os_listdir, split_pdf_to_images, List.map_append, List.filterMap_append,
    List.mem_append] at h ⊢
  tauto

theorem filter_ne_filter_eq_nil (p : String) (l : List (String × String)) :
    (l.filter (fun e => e.1 != p)).filter (fun e => e.1 == p) = [] := by
  induction l with
  | nil => rfl
  | cons x xs ih =>
      by_cases hx : (x.1 == p) = true
      · have h2 : (x.1 != p) = false := by simp [bne, hx]
        simp [List.filter_cons, h2, ih]
      · have h2 : (x.1 != p) = true := by simp [bne, hx]
        simp [List.filter_cons, h2, hx, ih]

theorem read_file_store (fs : FSState) (p c : String) :
    read_file (store fs p c) p = some c := by
  simp [read_file, store, List.filter_append, filter_ne_filter_eq_nil]

theorem intercalate_go_append (s pre : String) :
    ∀ (l : List String) (acc : String),
      String.intercalate.go (pre ++ acc) s l = pre ++ String.intercalate.go acc s l := by
  intro l
  induction l with
  | nil => intro acc; simp [String.intercalate.go]
  | cons x xs ih =>
      intro acc
      simp only [String.intercalate.go, String.append_assoc]
      exact ih (acc ++ (s ++ x))

theorem intercalate_cons_cons (s p q : String) (ps : List String) :
    String.intercalate s (p :: q :: ps) = p ++ s ++ String.intercalate s (q :: ps) := by
  show String.intercalate.go p s (q :: ps) = p ++ s ++ String.intercalate.go q s ps
  have h1 : String.intercalate.go p s (q :: ps)
      = String.intercalate.go ((p ++ s) ++ q) s ps := by
    simp [String.intercalate.go, String.append_assoc]
  rw [h1, intercalate_go_append s (p ++ s) ps q, String.append_assoc]


theorem hybrid_result_pages_of_sufficient (minimum_chars_number : Int) (ocr : String → String) :
    ∀ (extracted imgs : List String),
      extracted.length ≤ imgs.length →
      (∀ p ∈ extracted, p ≠ "" ∧ minimum_chars_number ≤ (p.length : Int)) →
      hybrid_result_pages minimum_chars_number ocr extracted imgs = extracted := by
  intro extracted
  induction extracted with
  | nil => intro imgs _ _; rfl
  | cons p ps ih =>
      intro imgs hlen hall
      cases imgs with
      | nil => simp at hlen
      | cons m ms =>
          have hp := hall p (List.mem_cons_self p ps)
          have hrest : ∀ q ∈ ps, q ≠ "" ∧ minimum_chars_number ≤ ((q.length : Int)) :=
            fun q hq => hall q (List.mem_cons_of_mem p hq)
          have hlen2 : ps.length ≤ ms.length := by simpa using hlen
          simp only [hybrid_result_pages, List.zip_cons_cons, List.map_cons]
          rw [show page_decision minimum_chars_number ocr p m = p from
            if_pos ⟨hp.1, hp.2⟩]
          have := ih ms hlen2 hrest
          simp only [hybrid_result_pages] at this
          rw [this]

theorem hybrid_ocr_calls_of_sufficient (minimum_chars_number : Int) :
    ∀ (extracted imgs : List String),
      (∀ p ∈ extracted, p ≠ "" ∧ minimum_chars_number ≤ (p.length : Int)) →
      hybrid_ocr_calls minimum_chars_number extracted imgs = [] := by
  intro extracted
  induction extracted with
  | nil => intro imgs _; rfl
  | cons p ps ih =>
      intro imgs hall
      cases imgs with
      | nil => rfl
      | cons m ms =>
          have hp := hall p (List.mem_cons_self p ps)
          have hrest : ∀ q ∈ ps, q ≠ "" ∧ minimum_chars_number ≤ ((q.length : Int)) :=
            fun q hq => hall q (List.mem_cons_of_mem p hq)
          simp only [hybrid_ocr_calls, List.zip_cons_cons, List.filterMap_cons]
          rw [if_pos ⟨hp.1, hp.2⟩]
          have := ih ms hrest
          simp only [hybrid_ocr_calls] at this
          rw [this]


/-- C1: in hybrid extraction, whenever the number of directly extracted page
strings differs from the number of rasterized page images, `extract_text`
raises `PageCountMismatch`, performs no OCR call and no store (no merge of
any subset of pages), leaves the file system exactly as the rasterization stage left it,
and the output text file is never created. -/
theorem hybrid_page_count_mismatch_fails_without_output
    (preserve_cache : Bool) (cache_folder pages_sep_token : String) (env : HybridEnv)
    (fs : FSState) (in_pdf out_txt : String) (minimum_chars_number : Int)
    (hchk : check_paths fs in_pdf out_txt = true)
    (hmis : env.extracted_pages.length ≠ (hybrid_imgs cache_folder env fs in_pdf).length)
    (hout : os_isfile fs out_txt = false)
    (himg : ∀ n ∈ env.raster_names,
      os_path_join (images_folder_path_of cache_folder in_pdf) n ≠ out_txt) :
    (hybrid_extract_text preserve_cache cache_folder pages_sep_token env fs in_pdf out_txt
        minimum_chars_number).result = .err .pageCountMismatch ∧
    (hybrid_extract_text preserve_cache cache_folder pages_sep_token env fs in_pdf out_txt
        minimum_chars_number).stored = none ∧
    (hybrid_extract_text preserve_cache cache_folder pages_sep_token env fs in_pdf out_txt
        minimum_chars_number).ocrCalls = [] ∧
    os_isfile (hybrid_extract_text preserve_cache cache_folder pages_sep_token env fs in_pdf
        out_txt minimum_chars_number).fs out_txt = false := by
  have hrun : hybrid_extract_text preserve_cache cache_folder pages_sep_token env fs in_pdf
      out_txt minimum_chars_number
      = ⟨.err .pageCountMismatch, hybrid_fs2 cache_folder env fs in_pdf, [], none⟩ := by
    rw [hybrid_extract_text, hchk]
    simp only [Bool.not_true]
    rw [if_neg (by simp), if_pos hmis]
  refine ⟨by rw [hrun], by rw [hrun], by rw [hrun], ?_⟩
  rw [hrun]
  exact os_isfile_hybrid_fs2_of_not cache_folder env fs in_pdf out_txt hout himg

/-- C1 witness: a concrete mismatched run (three pages, four images). -/
theorem hybrid_page_count_mismatch_fails_without_output_witness :
    (hybrid_extract_text false "/cache" "<END_PAGE>" env_mismatch fs0 "/w/in.pdf" "/w/out.txt"
        20).result = .err .pageCountMismatch ∧
    (hybrid_extract_text false "/cache" "<END_PAGE>" env_mismatch fs0 "/w/in.pdf" "/w/out.txt"
        20).stored = none ∧
    (hybrid_extract_text false "/cache" "<END_PAGE>" env_mismatch fs0 "/w/in.pdf" "/w/out.txt"
        20).ocrCalls = [] ∧
    os_isfile (hybrid_extract_text false "/cache" "<END_PAGE>" env_mismatch fs0 "/w/in.pdf"
        "/w/out.txt" 20).fs "/w/out.txt" = false :=
  hybrid_page_count_mismatch_fails_without_output false "/cache" "<END_PAGE>" env_mismatch fs0
    "/w/in.pdf" "/w/out.txt" 20 (by decide) (by decide) (by decide) (by decide)

/-- C2: in the hybrid per-page loop, page `i` of the result equals the
directly extracted text exactly when that text is non-empty and at least
`minimum_chars_number` characters long, and otherwise equals the OCR output on
the image paired with position `i`; each page is decided independently by this
pointwise rule. -/
theorem hybrid_page_decision_pointwise (minimum_chars_number : Int) (ocr : String → String)
    (extracted imgs : List String) (i : Nat)
    (h1 : i < extracted.length) (h2 : i < imgs.length) :
    (hybrid_result_pages minimum_chars_number ocr extracted imgs).getD i ""
      = (if extracted.getD i "" ≠ ""
            ∧ ((extracted.getD i "").length : Int) ≥ minimum_chars_number
         then extracted.getD i ""
         else ocr (imgs.getD i "")) := by
  induction extracted generalizing imgs i with
  | nil => simp at h1
  | cons p ps ih =>
      cases imgs with
      | nil => simp at h2
      | cons m ms =>
          cases i with
          | zero =>
              simp only [hybrid_result_pages, List.zip_cons_cons, List.map_cons,
                List.getD_cons_zero]
              rfl
          | succ j =>
              simp only [hybrid_result_pages, List.zip_cons_cons, List.map_cons,
                List.getD_cons_succ]
              have hj1 : j < ps.length := by simpa using h1
              have hj2 : j < ms.length := by simpa using h2
              exact ih ms j hj1 hj2

/-- C2 witness: a three-page document in which only the first page has enough
direct text. -/
theorem hybrid_page_decision_pointwise_witness :
    (hybrid_result_pages 20 ocr0 ["aaaaaaaaaaaaaaaaaaaaaaaa", "x", ""]
        ["i1", "i2", "i3"]).getD 1 ""
      = (if (["aaaaaaaaaaaaaaaaaaaaaaaa", "x", ""].getD 1 "") ≠ ""
            ∧ (((["aaaaaaaaaaaaaaaaaaaaaaaa", "x", ""].getD 1 "").length : Int) ≥ 20)
         then ["aaaaaaaaaaaaaaaaaaaaaaaa", "x", ""].getD 1 ""
         else ocr0 (["i1", "i2", "i3"].getD 1 "")) :=
  hybrid_page_decision_pointwise 20 ocr0 ["aaaaaaaaaaaaaaaaaaaaaaaa", "x", ""]
    ["i1", "i2", "i3"] 1 (by decide) (by decide)


/-- C3 counterexample: a concrete mismatched run with `preserve_cache = false`
in which deletion would succeed (`rmtree_ok = true`), yet after the
`PageCountMismatch` error the images folder still exists: no deletion attempt
is made on this error exit path. -/
theorem mismatch_error_leaves_cache_folder_concrete :
    (hybrid_extract_text false "/cache" "<END_PAGE>" env_mismatch fs0 "/w/in.pdf" "/w/out.txt"
        20).result = .err .pageCountMismatch ∧
    env_mismatch.rmtree_ok = true ∧
    os_isdir (hybrid_extract_text false "/cache" "<END_PAGE>" env_mismatch fs0 "/w/in.pdf"
        "/w/out.txt" 20).fs "/cache/in" = true := by
  decide

/-- C3 amended: on a hybrid page-count mismatch the extractor returns the
`PageCountMismatch` error without attempting cache cleanup: the images folder
is still present afterwards, even though preservation was not requested. -/
theorem hybrid_mismatch_skips_cache_cleanup
    (cache_folder pages_sep_token : String) (env : HybridEnv) (fs : FSState)
    (in_pdf out_txt : String) (minimum_chars_number : Int)
    (hchk : check_paths fs in_pdf out_txt = true)
    (hmis : env.extracted_pages.length ≠ (hybrid_imgs cache_folder env fs in_pdf).length) :
    (hybrid_extract_text false cache_folder pages_sep_token env fs in_pdf out_txt
        minimum_chars_number).result = .err .pageCountMismatch ∧
    os_isdir (hybrid_extract_text false cache_folder pages_sep_token env fs in_pdf out_txt
        minimum_chars_number).fs (create_images_folder cache_folder fs in_pdf).1 = true := by
  have hrun : hybrid_extract_text false cache_folder pages_sep_token env fs in_pdf out_txt
      minimum_chars_number
      = ⟨.err .pageCountMismatch, hybrid_fs2 cache_folder env fs in_pdf, [], none⟩ := by
    rw [hybrid_extract_text, hchk]
    simp only [Bool.not_true]
    rw [if_neg (by simp), if_pos hmis]
  exact ⟨by rw [hrun], by rw [hrun]; exact isdir_hybrid_fs2 cache_folder env fs in_pdf⟩

/-- C3 witness: the amended statement at the concrete mismatched run. -/
theorem hybrid_mismatch_skips_cache_cleanup_witness :
    (hybrid_extract_text false "/cache" "<END_PAGE>" env_mismatch fs0 "/w/in.pdf" "/w/out.txt"
        20).result = .err .pageCountMismatch ∧
    os_isdir (hybrid_extract_text false "/cache" "<END_PAGE>" env_mismatch fs0 "/w/in.pdf"
        "/w/out.txt" 20).fs (create_images_folder "/cache" fs0 "/w/in.pdf").1 = true :=
  hybrid_mismatch_skips_cache_cleanup "/cache" "<END_PAGE>" env_mismatch fs0 "/w/in.pdf"
    "/w/out.txt" 20 (by decide) (by decide)

/-- C4 counterexample: a concrete clean run in which the merged text is
written but `shutil.rmtree` fails; the extraction does not report success: the
cleanup error becomes the operation result. -/
theorem cleanup_failure_surfaces_concrete :
    (hybrid_extract_text false "/cache" "<END_PAGE>" env_rmfail fs0 "/w/in.pdf" "/w/out.txt"
        20).result = .err .cacheCleanupFailure ∧
    (hybrid_extract_text false "/cache" "<END_PAGE>" env_rmfail fs0 "/w/in.pdf" "/w/out.txt"
        20).result ≠ .ok ∧
    read_file (hybrid_extract_text false "/cache" "<END_PAGE>" env_rmfail fs0 "/w/in.pdf"
        "/w/out.txt" 20).fs "/w/out.txt"
      = some "this page has plenty of machine readable text" := by
  decide

/-- C4 amended: when cache-folder deletion fails after the merged text was
stored, the cleanup error propagates to the caller as the operation result
(the extraction does not report success), while the output file remains
written with the merged content. -/
theorem cache_cleanup_failure_propagates_after_write
    (cache_folder pages_sep_token : String) (env : HybridEnv) (fs : FSState)
    (in_pdf out_txt : String) (minimum_chars_number : Int)
    (hchk : check_paths fs in_pdf out_txt = true)
    (hcnt : env.extracted_pages.length = (hybrid_imgs cache_folder env fs in_pdf).length)
    (hrm : env.rmtree_ok = false) :
    (hybrid_extract_text false cache_folder pages_sep_token env fs in_pdf out_txt
        minimum_chars_number).result = .err .cacheCleanupFailure ∧
    (hybrid_extract_text false cache_folder pages_sep_token env fs in_pdf out_txt
        minimum_chars_number).stored
      = some (out_txt, merge_pages_contents pages_sep_token
          (hybrid_result_pages minimum_chars_number env.ocr env.extracted_pages
            (hybrid_imgs cache_folder env fs in_pdf))) ∧
    read_file (hybrid_extract_text false cache_folder pages_sep_token env fs in_pdf out_txt
        minimum_chars_number).fs out_txt
      = some (merge_pages_contents pages_sep_token
          (hybrid_result_pages minimum_chars_number env.ocr env.extracted_pages
            (hybrid_imgs cache_folder env fs in_pdf))) := by
  have hrun : hybrid_extract_text false cache_folder pages_sep_token env fs in_pdf out_txt
      minimum_chars_number
      = ⟨.err .cacheCleanupFailure,
         store (hybrid_fs2 cache_folder env fs in_pdf) out_txt
           (merge_pages_contents pages_sep_token
             (hybrid_result_pages minimum_chars_number env.ocr env.extracted_pages
               (hybrid_imgs cache_folder env fs in_pdf))),
         hybrid_ocr_calls minimum_chars_number env.extracted_pages
           (hybrid_imgs cache_folder env fs in_pdf),
         some (out_txt, merge_pages_contents pages_sep_token
           (hybrid_result_pages minimum_chars_number env.ocr env.extracted_pages
             (hybrid_imgs cache_folder env fs in_pdf)))⟩ := by
    rw [hybrid_extract_text, hchk]
    simp only [Bool.not_true]
    rw [if_neg (by simp), if_neg (not_not_intro hcnt)]
    simp only [remove_cache_folder, hrm]
    rfl
  refine ⟨by rw [hrun], by rw [hrun], ?_⟩
  rw [hrun]
  exact read_file_store _ out_txt _

/-- C4 witness: the amended statement at the concrete failing-cleanup run. -/
theorem cache_cleanup_failure_propagates_after_write_witness :
    (hybrid_extract_text false "/cache" "<END_PAGE>" env_rmfail fs0 "/w/in.pdf" "/w/out.txt"
        20).result = .err .cacheCleanupFailure ∧
    (hybrid_extract_text false "/cache" "<END_PAGE>" env_rmfail fs0 "/w/in.pdf" "/w/out.txt"
        20).stored
      = some ("/w/out.txt", merge_pages_contents "<END_PAGE>"
          (hybrid_result_pages 20 env_rmfail.ocr env_rmfail.extracted_pages
            (hybrid_imgs "/cache" env_rmfail fs0 "/w/in.pdf"))) ∧
    read_file (hybrid_extract_text false "/cache" "<END_PAGE>" env_rmfail fs0 "/w/in.pdf"
        "/w/out.txt" 20).fs "/w/out.txt"
      = some (merge_pages_contents "<END_PAGE>"
          (hybrid_result_pages 20 env_rmfail.ocr env_rmfail.extracted_pages
            (hybrid_imgs "/cache" env_rmfail fs0 "/w/in.pdf"))) :=
  cache_cleanup_failure_propagates_after_write "/cache" "<END_PAGE>" env_rmfail fs0 "/w/in.pdf"
    "/w/out.txt" 20 (by decide) (by decide) (by decide)


/-- C5 counterexample: a one-page document whose direct text is the empty
string and `minimum_chars_number = 0`. Every page's direct text length is at
least the threshold (0 ≥ 0), yet the hybrid extractor invokes OCR on the page
and its stored output differs from the pure-text extractor's stored output. -/
theorem hybrid_empty_page_min_zero_invokes_ocr :
    (∀ p ∈ env_empty1.extracted_pages, (0 : Int) ≤ (p.length : Int)) ∧
    (hybrid_extract_text false "/cache" "<END_PAGE>" env_empty1 fs0 "/w/in.pdf" "/w/out.txt"
        0).ocrCalls = ["/cache/in/pag-1.png"] ∧
    (hybrid_extract_text false "/cache" "<END_PAGE>" env_empty1 fs0 "/w/in.pdf" "/w/out.txt"
        0).stored = some ("/w/out.txt", "OCRTEXT") ∧
    (pdftotext_extract_text "<END_PAGE>" env_empty1.extracted_pages fs0 "/w/in.pdf"
        "/w/out.txt").stored = some ("/w/out.txt", "") := by
  decide

/-- C5 amended: for every document in which every page's direct text is
non-empty and at least `minimum_chars_number` characters long — in particular
for threshold 0 on documents with non-empty direct text per page — the hybrid
extractor stores the same merged output as the pure-text extractor and never
invokes the OCR engine. -/
theorem hybrid_equals_pdftotext_when_direct_text_sufficient
    (preserve_cache : Bool) (cache_folder pages_sep_token : String) (env : HybridEnv)
    (fs : FSState) (in_pdf out_txt : String) (minimum_chars_number : Int)
    (hchk : check_paths fs in_pdf out_txt = true)
    (hcnt : env.extracted_pages.length = (hybrid_imgs cache_folder env fs in_pdf).length)
    (hall : ∀ p ∈ env.extracted_pages, p ≠ "" ∧ minimum_chars_number ≤ (p.length : Int)) :
    (hybrid_extract_text preserve_cache cache_folder pages_sep_token env fs in_pdf out_txt
        minimum_chars_number).stored
      = (pdftotext_extract_text pages_sep_token env.extracted_pages fs in_pdf out_txt).stored ∧
    (hybrid_extract_text preserve_cache cache_folder pages_sep_token env fs in_pdf out_txt
        minimum_chars_number).ocrCalls = [] := by
  have hpages : hybrid_result_pages minimum_chars_number env.ocr env.extracted_pages
      (hybrid_imgs cache_folder env fs in_pdf) = env.extracted_pages :=
    hybrid_result_pages_of_sufficient minimum_chars_number env.ocr env.extracted_pages
      (hybrid_imgs cache_folder env fs in_pdf) (le_of_eq hcnt) hall
  have hcalls : hybrid_ocr_calls minimum_chars_number env.extracted_pages
      (hybrid_imgs cache_folder env fs in_pdf) = [] :=
    hybrid_ocr_calls_of_sufficient minimum_chars_number env.extracted_pages
      (hybrid_imgs cache_folder env fs in_pdf) hall
  have hhyb : (hybrid_extract_text preserve_cache cache_folder pages_sep_token env fs in_pdf
      out_txt minimum_chars_number).stored
        = some (out_txt, merge_pages_contents pages_sep_token env.extracted_pages)
      ∧ (hybrid_extract_text preserve_cache cache_folder pages_sep_token env fs in_pdf
      out_txt minimum_chars_number).ocrCalls = [] := by
    rw [hybrid_extract_text, hchk]
    simp only [Bool.not_true]
    rw [if_neg (by simp), if_neg (not_not_intro hcnt)]
    simp only [hpages, hcalls]
    constructor <;> first | rfl | trivial
  have hpd : (pdftotext_extract_text pages_sep_token env.extracted_pages fs in_pdf
      out_txt).stored = some (out_txt, merge_pages_contents pages_sep_token
        env.extracted_pages) := by
    rw [pdftotext_extract_text, hchk]
    simp only [Bool.not_true]
    rw [if_neg (by simp)]
  exact ⟨by rw [hhyb.1, hpd], hhyb.2⟩

/-- C5 witness: the amended statement at a concrete one-page document with 24
characters of direct text and threshold 20. -/
theorem hybrid_equals_pdftotext_when_direct_text_sufficient_witness :
    (hybrid_extract_text false "/cache" "<END_PAGE>" env_good fs0 "/w/in.pdf" "/w/out.txt"
        20).stored
      = (pdftotext_extract_text "<END_PAGE>" env_good.extracted_pages fs0 "/w/in.pdf"
          "/w/out.txt").stored ∧
    (hybrid_extract_text false "/cache" "<END_PAGE>" env_good fs0 "/w/in.pdf" "/w/out.txt"
        20).ocrCalls = [] :=
  hybrid_equals_pdftotext_when_direct_text_sufficient false "/cache" "<END_PAGE>" env_good fs0
    "/w/in.pdf" "/w/out.txt" 20 (by decide) (by decide) (by decide)


/-- C6: for any separator token and any page strings (including empty ones),
the merge joins the strings verbatim in input order with the separator token
surrounded by blank lines (default joiner the string of two newlines,
END_PAGE marker, two newlines); it is a total function, hence deterministic,
and the head-recursion equation shows it never reorders or drops a page. -/
theorem merge_pages_contents_spec (sep a b c p q : String) (ps : List String) :
    merge_pages_contents sep [a, b, c]
        = a ++ ("\n\n" ++ sep ++ "\n\n") ++ b ++ ("\n\n" ++ sep ++ "\n\n") ++ c ∧
    merge_pages_contents "<END_PAGE>" [a, b] = a ++ "\n\n<END_PAGE>\n\n" ++ b ∧
    merge_pages_contents sep (p :: q :: ps)
        = p ++ ("\n\n" ++ sep ++ "\n\n") ++ merge_pages_contents sep (q :: ps) ∧
    merge_pages_contents sep [p] = p ∧
    merge_pages_contents sep [] = "" := by
  have hcc : ∀ (x y : String) (l : List String),
      merge_pages_contents sep (x :: y :: l)
        = x ++ ("\n\n" ++ sep ++ "\n\n") ++ merge_pages_contents sep (y :: l) := by
    intro x y l
    exact intercalate_cons_cons ("\n\n" ++ sep ++ "\n\n") x y l
  have hone : ∀ x : String, merge_pages_contents sep [x] = x := by
    intro x
    rfl
  refine ⟨?_, ?_, hcc p q ps, hone p, rfl⟩
  · rw [hcc a b [c], hcc b c [], hone c]
    simp [String.append_assoc]
  · have h1 : merge_pages_contents "<END_PAGE>" [a, b]
        = a ++ ("\n\n" ++ "<END_PAGE>" ++ "\n\n") ++ merge_pages_contents "<END_PAGE>" [b] :=
      intercalate_cons_cons ("\n\n" ++ "<END_PAGE>" ++ "\n\n") a b []
    rw [h1, show merge_pages_contents "<END_PAGE>" [b] = b from rfl,
      show ("\n\n" ++ "<END_PAGE>" ++ "\n\n" : String) = "\n\n<END_PAGE>\n\n" from by decide]

/-- C7 counterexample: the claimed default bundle is false, because the
`preserve_cache` keyword of `NotMrPdfExtractor.__init__` defaults to `True`,
not `False` (all other defaults are as claimed). -/
theorem default_preserve_cache_not_false :
    ¬ (({} : HybridExtractDefaults).minimum_chars_number = 20 ∧
       ({} : HybridExtractDefaults).raw = false ∧
       ({} : HybridExtractDefaults).physical = false ∧
       ({} : HybridExtractDefaults).dpi = 200 ∧
       ({} : HybridExtractDefaults).lang = "eng" ∧
       ({} : HybridExtractDefaults).oem = 3 ∧
       ({} : HybridExtractDefaults).psm = 3 ∧
       ({} : HybridExtractDefaults).tessdata_dir = none ∧
       ({} : HybridExtractDefaults).thresholding_method = 0 ∧
       ({} : HybridExtractDefaults).preserve_interword_spaces = 1 ∧
       ({} : NotMrInitDefaults).preserve_cache = false) := by
  decide

/-- C7 amended: the extractor configuration defaults are
`minimum_chars_number = 20`, `raw = false`, `physical = false`, `dpi = 200`,
`lang = "eng"`, `oem = 3`, `psm = 3`, `tessdata_dir = none`,
`thresholding_method = 0`, `preserve_interword_spaces = 1`, and
`preserve_cache = true`. -/
theorem extractor_option_defaults :
    ({} : HybridExtractDefaults).minimum_chars_number = 20 ∧
    ({} : HybridExtractDefaults).raw = false ∧
    ({} : HybridExtractDefaults).physical = false ∧
    ({} : HybridExtractDefaults).dpi = 200 ∧
    ({} : HybridExtractDefaults).lang = "eng" ∧
    ({} : HybridExtractDefaults).oem = 3 ∧
    ({} : HybridExtractDefaults).psm = 3 ∧
    ({} : HybridExtractDefaults).tessdata_dir = none ∧
    ({} : HybridExtractDefaults).thresholding_method = 0 ∧
    ({} : HybridExtractDefaults).preserve_interword_spaces = 1 ∧
    ({} : NotMrInitDefaults).preserve_cache = true := by
  decide

/-- C8: when the input path is not an existing file, or equals the output
path, or the output file's directory does not exist, each of the three
extractor variants returns the invalid-input error with the file system
untouched, no OCR call and no store — so before any collaborator invocation,
cache-folder creation or output write. -/
theorem invalid_paths_fail_immediately
    (preserve_cache : Bool) (cache_folder pages_sep_token : String) (env : HybridEnv)
    (fs : FSState) (in_pdf out_txt : String) (minimum_chars_number : Int)
    (h : os_isfile fs in_pdf = false ∨ in_pdf = out_txt ∨
      os_isdir fs (if (os_path_split out_txt).1 = "" then fs.cwd
        else (os_path_split out_txt).1) = false) :
    hybrid_extract_text preserve_cache cache_folder pages_sep_token env fs in_pdf out_txt
        minimum_chars_number = ⟨.err .invalidInput, fs, [], none⟩ ∧
    pdftotext_extract_text pages_sep_token env.extracted_pages fs in_pdf out_txt
        = ⟨.err .invalidInput, fs, [], none⟩ ∧
    tesseract_extract_text preserve_cache cache_folder pages_sep_token env fs in_pdf out_txt
        = ⟨.err .invalidInput, fs, [], none⟩ := by
  have hc : check_paths fs in_pdf out_txt = false := by
    rcases h with h | h | h
    · simp [check_paths, h]
    · subst h
      simp [check_paths]
    · simp [check_paths, h]
  refine ⟨?_, ?_, ?_⟩
  · rw [hybrid_extract_text, hc]
    rfl
  · rw [pdftotext_extract_text, hc]
    rfl
  · rw [tesseract_extract_text, hc]
    rfl

/-- C8 witness: the three variants on a run whose output path equals its
input path. -/
theorem invalid_paths_fail_immediately_witness :
    hybrid_extract_text false "/cache" "<END_PAGE>" env_good fs0 "/w/in.pdf" "/w/in.pdf" 20
        = ⟨.err .invalidInput, fs0, [], none⟩ ∧
    pdftotext_extract_text "<END_PAGE>" env_good.extracted_pages fs0 "/w/in.pdf" "/w/in.pdf"
        = ⟨.err .invalidInput, fs0, [], none⟩ ∧
    tesseract_extract_text false "/cache" "<END_PAGE>" env_good fs0 "/w/in.pdf" "/w/in.pdf"
        = ⟨.err .invalidInput, fs0, [], none⟩ :=
  invalid_paths_fail_immediately false "/cache" "<END_PAGE>" env_good fs0 "/w/in.pdf"
    "/w/in.pdf" 20 (Or.inr (Or.inl rfl))

/-- C9: the images folder path is the configured cache folder joined with the
input file name stripped of extensions by splitting on the first dot-suffix;
in particular every input named `report.v2.pdf` yields the folder name
`report`; and the created folder lies inside the cache folder and exists after
creation. -/
theorem images_folder_name_derivation
    (cache_folder : String) (fs : FSState) (in_pdf p : String)
    (hname : (os_path_split p).2 = "report.v2.pdf") :
    (create_images_folder cache_folder fs in_pdf).1
        = os_path_join cache_folder (remove_extensions (os_path_split in_pdf).2) ∧
    images_folder_path_of cache_folder p = os_path_join cache_folder "report" ∧
    remove_extensions "report.v2.pdf" = "report" ∧
    os_isdir (create_images_folder cache_folder fs in_pdf).2
        (create_images_folder cache_folder fs in_pdf).1 = true := by
  refine ⟨?_, ?_, by decide, isdir_create_images_folder cache_folder fs in_pdf⟩
  · rw [create_images_folder_fst]
    rfl
  · show os_path_join cache_folder (remove_extensions (os_path_split p).2)
        = os_path_join cache_folder "report"
    rw [hname, show remove_extensions "report.v2.pdf" = "report" from by decide]

/-- C9 witness: the derivation at a concrete input `/data/report.v2.pdf`. -/
theorem images_folder_name_derivation_witness :
    (create_images_folder "/cache" fs0 "/w/in.pdf").1
        = os_path_join "/cache" (remove_extensions (os_path_split "/w/in.pdf").2) ∧
    images_folder_path_of "/cache" "/data/report.v2.pdf" = os_path_join "/cache" "report" ∧
    remove_extensions "report.v2.pdf" = "report" ∧
    os_isdir (create_images_folder "/cache" fs0 "/w/in.pdf").2
        (create_images_folder "/cache" fs0 "/w/in.pdf").1 = true :=
  images_folder_name_derivation "/cache" fs0 "/w/in.pdf" "/data/report.v2.pdf" (by decide)

/-- C10: when the images folder already exists, `_create_images_folder`
returns it unchanged without error (creation is skipped and the file system is
untouched), and any entry already listed in it is included — joined onto the
folder path — in the sorted image list on which the hybrid page-count check
and the per-page pairing operate. -/
theorem existing_images_folder_reused
    (cache_folder : String) (env : HybridEnv) (fs : FSState) (in_pdf e : String)
    (hdir : os_isdir fs (images_folder_path_of cache_folder in_pdf) = true)
    (he : e ∈ os_listdir fs (images_folder_path_of cache_folder in_pdf)) :
    create_images_folder cache_folder fs in_pdf = (images_folder_path_of cache_folder in_pdf, fs) ∧
    os_path_join (images_folder_path_of cache_folder in_pdf) e
        ∈ hybrid_imgs cache_folder env fs in_pdf := by
  have hcr : create_images_folder cache_folder fs in_pdf
      = (images_folder_path_of cache_folder in_pdf, fs) := by
    simp [create_images_folder, hdir]
  refine ⟨hcr, ?_⟩
  rw [hybrid_imgs, hybrid_fs2, hcr]
  rw [hybrid_imgs_pages, mem_sortStrings]
  refine List.mem_map_of_mem _ ?_
  rw [mem_sortStrings]
  exact mem_os_listdir_split fs (images_folder_path_of cache_folder in_pdf) env.raster_names
    (images_folder_path_of cache_folder in_pdf) e he

/-- C10 witness: a pre-existing folder `/cache/in` holding a stale image
`zz.png` which ends up in the hybrid image list. -/
theorem existing_images_folder_reused_witness :
    create_images_folder "/cache" fs_pre "/w/in.pdf"
        = (images_folder_path_of "/cache" "/w/in.pdf", fs_pre) ∧
    os_path_join (images_folder_path_of "/cache" "/w/in.pdf") "zz.png"
        ∈ hybrid_imgs "/cache" env_good fs_pre "/w/in.pdf" :=
  existing_images_folder_reused "/cache" env_good fs_pre "/w/in.pdf" "zz.png" (by decide)
    (by decide)

end Poppleract
